import Mathlib

set_option maxRecDepth 10000
set_option linter.unusedVariables false

/-!
Shallow embedding of the `google-mcp-server` client/test scripts
(`create_claude_doc.py`, `test_mcp.py`, `test_multi_account.py`).

The scripts exchange newline-delimited JSON with a child process.  We embed
the JSON values the scripts construct and inspect as an inductive `Json`
type, the Python-side serialization `json.dumps` as `Json.dumps` (with the
standard `ensure_ascii` escaping), and `json.loads` as the total, fuel-based
`parseJson`.  Numbers are modelled as integers (the scripts only ever build
or inspect integral ids and error codes; fractional literals are rejected by
the model parser, an unexercised corner of `json.loads`).
-/

/-- A JSON value, as produced and consumed by Python's `json` module in the
scripts.  Object fields keep insertion order, mirroring `dict`. -/
inductive Json where
  | null : Json
  | bool (b : Bool) : Json
  | num (n : Int) : Json
  | str (s : String) : Json
  | arr (items : List Json) : Json
  | obj (fields : List (String × Json)) : Json

/-- First-match association lookup, i.e. `dict.get(k)` on a dict whose keys
are unique (the parser deduplicates on insertion, like `json.loads`). -/
def jlookup : List (String × Json) → String → Option Json
  | [], _ => none
  | (k, v) :: rest, key => if k = key then some v else jlookup rest key

/-- `dict.get(key)` on a JSON value: `none` when the value is not an object
or lacks the key. -/
def Json.get? : Json → String → Option Json
  | .obj fields, key => jlookup fields key
  | _, _ => none

/-- `key in value` for a JSON object (Python key membership). -/
def Json.hasKey (j : Json) (key : String) : Bool :=
  (j.get? key).isSome

/-- The keys of a JSON object, in insertion order. -/
def Json.keys : Json → List String
  | .obj fields => fields.map (fun p => p.1)
  | _ => []

/-- Python truthiness of a parsed JSON value (`bool(x)`). -/
def Json.truthy : Json → Bool
  | .null => false
  | .bool b => b
  | .num n => n != 0
  | .str s => !s.isEmpty
  | .arr items => !items.isEmpty
  | .obj fields => !fields.isEmpty

/-- Substring test, i.e. Python's `needle in hay` on strings. -/
def subseqIn (hay needle : List Char) : Bool :=
  match hay with
  | [] => needle.isEmpty
  | _ :: rest => needle.isPrefixOf hay || subseqIn rest needle

/-! ### Serialization (`json.dumps`) -/

/-- One lowercase hexadecimal digit. -/
def hexDigit (d : Nat) : Char :=
  match d with
  | 0 => '0' | 1 => '1' | 2 => '2' | 3 => '3' | 4 => '4'
  | 5 => '5' | 6 => '6' | 7 => '7' | 8 => '8' | 9 => '9'
  | 10 => 'a' | 11 => 'b' | 12 => 'c' | 13 => 'd' | 14 => 'e'
  | _ => 'f'

/-- Four-hex-digit rendering of `n < 0x10000`, as in a `\uXXXX` escape. -/
def hex4 (n : Nat) : List Char :=
  [hexDigit (n / 4096 % 16), hexDigit (n / 256 % 16),
   hexDigit (n / 16 % 16), hexDigit (n % 16)]

/-- How `json.dumps` (default `ensure_ascii=True`) renders one character of a
string: short escapes for the two JSON metacharacters and the common control
characters, `\uXXXX` (with surrogate pairs above the BMP) for everything
outside printable ASCII, and the character itself otherwise. -/
def escapeChar (c : Char) : List Char :=
  if c = '"' then ['\\', '"']
  else if c = '\\' then ['\\', '\\']
  else if c = '\n' then ['\\', 'n']
  else if c = '\r' then ['\\', 'r']
  else if c = '\t' then ['\\', 't']
  else if c = '\x08' then ['\\', 'b']
  else if c = '\x0c' then ['\\', 'f']
  else if c.toNat < 32 then '\\' :: 'u' :: hex4 c.toNat
  else if c.toNat < 127 then [c]
  else if c.toNat < 65536 then '\\' :: 'u' :: hex4 c.toNat
  else
    '\\' :: 'u' :: hex4 (55296 + (c.toNat - 65536) / 1024) ++
      ('\\' :: 'u' :: hex4 (56320 + (c.toNat - 65536) % 1024))

/-- Escape a whole string body. -/
def escapeBody : List Char → List Char
  | [] => []
  | c :: cs => escapeChar c ++ escapeBody cs

/-- A JSON string literal: quote, escaped body, quote. -/
def dumpStr (s : String) : List Char :=
  '"' :: escapeBody s.data ++ ['"']

/-- Decimal digits of `n`, most significant first, prepended to `acc`.
Structural on a fuel bound so the kernel can evaluate it; `n + 1` units of
fuel always suffice since `n` shrinks by a factor of ten per step. -/
def natCharsAux : Nat → Nat → List Char → List Char
  | 0, _, acc => acc
  | fuel + 1, n, acc =>
      if n < 10 then hexDigit n :: acc
      else natCharsAux fuel (n / 10) (hexDigit (n % 10) :: acc)

/-- Decimal digits of `n`, most significant first, prepended to `acc`. -/
def natChars (n : Nat) (acc : List Char) : List Char :=
  natCharsAux (n + 1) n acc

/-- Decimal rendering of an integer, as `json.dumps` prints Python ints. -/
def intChars (n : Int) : List Char :=
  if n < 0 then '-' :: natChars n.natAbs [] else natChars n.natAbs []

mutual

/-- The characters `json.dumps` emits for a value, with the default
separators `", "` and `": "`. -/
def dumpChars : Json → List Char
  | .null => "null".data
  | .bool true => "true".data
  | .bool false => "false".data
  | .num n => intChars n
  | .str s => dumpStr s
  | .arr items => '[' :: dumpItems items ++ [']']
  | .obj fields => '\x7b' :: dumpFields fields ++ ['\x7d']

/-- Array elements joined by `", "`. -/
def dumpItems : List Json → List Char
  | [] => []
  | [x] => dumpChars x
  | x :: y :: rest => dumpChars x ++ ',' :: ' ' :: dumpItems (y :: rest)

/-- Object members `"key": value` joined by `", "`. -/
def dumpFields : List (String × Json) → List Char
  | [] => []
  | [(k, v)] => dumpStr k ++ ':' :: ' ' :: dumpChars v
  | (k, v) :: m :: rest =>
      dumpStr k ++ ':' :: ' ' :: dumpChars v ++ ',' :: ' ' :: dumpFields (m :: rest)

end

/-- `json.dumps` as a string. -/
def Json.dumps (j : Json) : String :=
  String.mk (dumpChars j)

/-! ### Parsing (`json.loads`) -/

/-- JSON insignificant whitespace. -/
def isJsonWs (c : Char) : Bool :=
  c = ' ' || c = '\t' || c = '\n' || c = '\r'

/-- Drop leading JSON whitespace. -/
def dropWs : List Char → List Char
  | [] => []
  | c :: cs => if isJsonWs c then dropWs cs else c :: cs

/-- Value of one hexadecimal digit. -/
def hexVal? (c : Char) : Option Nat :=
  if '0' ≤ c ∧ c ≤ '9' then some (c.toNat - 48)
  else if 'a' ≤ c ∧ c ≤ 'f' then some (c.toNat - 97 + 10)
  else if 'A' ≤ c ∧ c ≤ 'F' then some (c.toNat - 65 + 10)
  else none

/-- The character named by a two-character escape. -/
def shortEscape? (c : Char) : Option Char :=
  if c = '"' then some '"'
  else if c = '\\' then some '\\'
  else if c = '/' then some '/'
  else if c = 'n' then some '\n'
  else if c = 'r' then some '\r'
  else if c = 't' then some '\t'
  else if c = 'b' then some '\x08'
  else if c = 'f' then some '\x0c'
  else none

/-- Body of a string literal after the opening quote, up to the closing
quote.  Raw control characters are rejected, as by `json.loads` in strict
mode. -/
def scanStr (acc : List Char) : List Char → Option (String × List Char)
  | [] => none
  | '"' :: rest => some (String.mk acc.reverse, rest)
  | '\\' :: 'u' :: a :: b :: c :: d :: rest =>
      match hexVal? a, hexVal? b, hexVal? c, hexVal? d with
      | some va, some vb, some vc, some vd =>
          scanStr (Char.ofNat (((va * 16 + vb) * 16 + vc) * 16 + vd) :: acc) rest
      | _, _, _, _ => none
  | '\\' :: e :: rest =>
      match shortEscape? e with
      | some ch => scanStr (ch :: acc) rest
      | none => none
  | c :: rest => if c.toNat < 32 then none else scanStr (c :: acc) rest

/-- Longest leading run of decimal digits. -/
def scanDigits : List Char → List Char × List Char
  | [] => ([], [])
  | c :: cs =>
      if c.isDigit then
        let (ds, rest) := scanDigits cs
        (c :: ds, rest)
      else ([], c :: cs)

/-- Numeric value of a digit run. -/
def digitsVal (ds : List Char) : Nat :=
  ds.foldl (fun acc c => acc * 10 + (c.toNat - 48)) 0

/-- An integer literal: optional minus, digits, no leading zero.  A following
fraction or exponent makes the whole document unparseable in this model (see
the module comment). -/
def scanInt (cs : List Char) : Option (Int × List Char) :=
  let (neg, cs1) := match cs with
    | '-' :: r => (true, r)
    | _ => (false, cs)
  match scanDigits cs1 with
  | ([], _) => none
  | (d :: ds, rest) =>
      if d = '0' ∧ ds ≠ [] then none
      else
        let v : Int := (digitsVal (d :: ds) : Nat)
        some (if neg then -v else v, rest)

/-- Remove the (unique) member with the given key, if any. -/
def eraseKey : List (String × Json) → String → List (String × Json)
  | [], _ => []
  | (k, w) :: rest, key => if k = key then rest else (k, w) :: eraseKey rest key

/-- Prepend a member to already-parsed later members, as `json.loads` builds
a dict: a key keeps its first-occurrence position but takes its last value,
so a later duplicate only overwrites this member's value. -/
def consField (key : String) (v : Json) (rest : List (String × Json)) :
    List (String × Json) :=
  match jlookup rest key with
  | some w => (key, w) :: eraseKey rest key
  | none => (key, v) :: rest

mutual

/-- One JSON value, after optional leading whitespace.  Total by the fuel
argument; callers pass more fuel than characters, which always suffices. -/
def scanVal (fuel : Nat) (cs : List Char) : Option (Json × List Char) :=
  match fuel with
  | 0 => none
  | fuel + 1 =>
      match dropWs cs with
      | 'n' :: 'u' :: 'l' :: 'l' :: r => some (.null, r)
      | 't' :: 'r' :: 'u' :: 'e' :: r => some (.bool true, r)
      | 'f' :: 'a' :: 'l' :: 's' :: 'e' :: r => some (.bool false, r)
      | '"' :: r =>
          match scanStr [] r with
          | some (s, r2) => some (.str s, r2)
          | none => none
      | '[' :: r =>
          match dropWs r with
          | ']' :: r2 => some (.arr [], r2)
          | r1 =>
              match scanItems fuel r1 with
              | some (items, r2) => some (.arr items, r2)
              | none => none
      | '\x7b' :: r =>
          match dropWs r with
          | '\x7d' :: r2 => some (.obj [], r2)
          | r1 =>
              match scanMembers fuel r1 with
              | some (fields, r2) => some (.obj fields, r2)
              | none => none
      | c :: rest =>
          if c = '-' ∨ c.isDigit then
            match scanInt (c :: rest) with
            | some (n, r2) => some (.num n, r2)
            | none => none
          else none
      | [] => none

/-- One-or-more comma-separated array elements up to `]`. -/
def scanItems (fuel : Nat) (cs : List Char) : Option (List Json × List Char) :=
  match fuel with
  | 0 => none
  | fuel + 1 =>
      match scanVal fuel cs with
      | none => none
      | some (v, r) =>
          match dropWs r with
          | ',' :: r2 =>
              match scanItems fuel r2 with
              | some (vs, r3) => some (v :: vs, r3)
              | none => none
          | ']' :: r2 => some ([v], r2)
          | _ => none

/-- One-or-more comma-separated object members up to the closing brace. -/
def scanMembers (fuel : Nat) (cs : List Char) :
    Option (List (String × Json) × List Char) :=
  match fuel with
  | 0 => none
  | fuel + 1 =>
      match dropWs cs with
      | '"' :: r =>
          match scanStr [] r with
          | none => none
          | some (key, r1) =>
              match dropWs r1 with
              | ':' :: r2 =>
                  match scanVal fuel r2 with
                  | none => none
                  | some (v, r3) =>
                      match dropWs r3 with
                      | ',' :: r4 =>
                          match scanMembers fuel r4 with
                          | some (fields, r5) => some (consField key v fields, r5)
                          | none => none
                      | '\x7d' :: r4 => some ([(key, v)], r4)
                      | _ => none
              | _ => none
      | _ => none

end

/-- `json.loads`: parse one complete document, allowing surrounding
whitespace only (`none` models `json.JSONDecodeError`). -/
def parseJson (s : String) : Option Json :=
  match scanVal (s.data.length + 1) s.data with
  | some (v, rest) => if dropWs rest = [] then some v else none
  | none => none

/-- Python's `str.strip()` (whitespace including vertical tab and form
feed). -/
def pyStrip (s : String) : String :=
  let ws := fun c : Char =>
    c = ' ' || c = '\t' || c = '\n' || c = '\r' || c = '\x0b' || c = '\x0c'
  String.mk (((s.data.dropWhile ws).reverse.dropWhile ws).reverse)

/-! ### Shared pieces of the three scripts -/

/-- Outcome of the Python check `if not response or "error" in response`
guarding each step of `create_claude_doc.main` and `test_mcp.main`:
`fail` takes the `return 1` branch, `ok` continues, `crash` models the
`TypeError` raised by `"error" in response` on a number or boolean. -/
inductive RespCheck where
  | fail : RespCheck
  | ok : RespCheck
  | crash : RespCheck
  deriving DecidableEq

/-- The step guard `if not response or "error" in response` itself.  A `None`
or falsy response fails; for a truthy response, `in` is key membership on a
dict, substring search on a string, element membership on a list, and a
`TypeError` otherwise. -/
def checkResp : Option Json → RespCheck
  | none => .fail
  | some v =>
      if !v.truthy then .fail
      else
        match v with
        | .obj fields => if (jlookup fields "error").isSome then .fail else .ok
        | .str s => if subseqIn s.data "error".data then .fail else .ok
        | .arr items =>
            if items.any (fun j => match j with | .str s => s = "error" | _ => false)
            then .fail else .ok
        | _ => .crash

/-- Outcome of the inlined document-id extraction in either script: `crash`
models an uncaught exception (`AttributeError`/`TypeError`/`KeyError`),
`parseFail` the `except json.JSONDecodeError: return 1` branch of
`test_mcp.main`, and `done chosen` a completed lookup, where `chosen` holds
the text the code committed to and the `documentId` value found in it. -/
inductive ExtractOutcome where
  | crash : ExtractOutcome
  | parseFail : ExtractOutcome
  | done : Option (String × Option Json) → ExtractOutcome

/-- `item.get("text", "\x7b\x7d")` as fed to `json.loads`: the default when
the key is missing, the string value when it is a string, and `none` (an
uncaught `TypeError` from `json.loads`) otherwise. -/
def itemText (fields : List (String × Json)) : Option String :=
  match jlookup fields "text" with
  | none => some "\x7b\x7d"
  | some (Json.str s) => some s
  | some _ => none

/-- What `result = response.get("result", \x7b\x7d)` followed by
`content = result.get("content", [])` yields in both scripts: the item list
when `content` is a non-empty list, `emptyOrMissing` when `content` is falsy
(both scripts then report a missing id and exit 1), and `crash` when some
`.get` lands on a non-dict or the loop/index hits a truthy non-list. -/
inductive ContentOutcome where
  | crash : ContentOutcome
  | emptyOrMissing : ContentOutcome
  | items : List Json → ContentOutcome

/-- Unwrap `response.result.content` per `contentOutcome`'s description. -/
def contentOf : Option Json → ContentOutcome
  | some (Json.obj fields) =>
      match (jlookup fields "result").getD (Json.obj []) with
      | Json.obj rf =>
          match (jlookup rf "content").getD (Json.arr []) with
          | Json.arr l => if l.isEmpty then .emptyOrMissing else .items l
          | other => if other.truthy then .crash else .emptyOrMissing
      | _ => .crash
  | _ => .crash

/-- A process-lifecycle action a script performs on the spawned child. -/
inductive ProcAction where
  | terminate : ProcAction
  | waitGrace : Nat → ProcAction
  | kill : ProcAction
  | communicateWait : ProcAction
  deriving DecidableEq

/-! ### `create_claude_doc.py` -/

namespace CreateClaudeDoc

/-- The request dict `send_mcp_request` builds: `jsonrpc`, `id`, `method`
always, and `params` only when the argument is truthy (`if params:`), so a
supplied-but-empty params dict is silently dropped. -/
def request (method : String) (params : Option Json) : Json :=
  Json.obj ([("jsonrpc", Json.str "2.0"), ("id", Json.num 1),
             ("method", Json.str method)] ++
    (match params with
     | some p => if p.truthy then [("params", p)] else []
     | none => []))

/-- The characters written to the child's stdin:
`json.dumps(request) + "\n"`. -/
def requestLine (method : String) (params : Option Json) : List Char :=
  dumpChars (request method params) ++ ['\n']

/-- `send_mcp_request`'s returned value as a function of the child's whole
stdout and stderr (the script uses `communicate`, so it sees both streams in
full): any non-empty stderr short-circuits to `None`; otherwise the stripped
stdout is parsed, with a parse failure also yielding `None`. -/
def send_mcp_request (method : String) (params : Option Json)
    (stdoutData stderrData : String) : Option Json :=
  if !stderrData.isEmpty then none
  else parseJson (pyStrip stdoutData)

/-- The document-id loop of `main` (lines 91–99): looks only at dict items
whose `type` is the string `"text"`, feeds each one's text to `json.loads`,
skips it on a decode error (`continue`), and breaks at the first that
parses, keeping whatever `doc_data.get("documentId")` gives.  A non-dict
item or a parsed non-dict raises out of `main`. -/
def docIdScan : List Json → ExtractOutcome
  | [] => .done none
  | item :: rest =>
      match item with
      | .obj fields =>
          match jlookup fields "type" with
          | some (Json.str ty) =>
              if ty = "text" then
                match itemText fields with
                | none => .crash
                | some t =>
                    match parseJson t with
                    | none => docIdScan rest
                    | some (Json.obj doc) => .done (some (t, jlookup doc "documentId"))
                    | some _ => .crash
              else docIdScan rest
          | _ => docIdScan rest
      | _ => .crash

/-- The whole extraction step of `main`: unwrap `result.content`, bail out
when it is empty or missing, and otherwise run the loop. -/
def extractOutcome (r : Option Json) : ExtractOutcome :=
  match contentOf r with
  | .crash => .crash
  | .emptyOrMissing => .done none
  | .items l => docIdScan l

/-- Whether `main` gets past `if not document_id`: the loop must have
committed to an item whose parsed text has a truthy `documentId`. -/
def extractionOk (r : Option Json) : Bool :=
  match extractOutcome r with
  | .done (some (_, some d)) => d.truthy
  | _ => false

/-- `main`'s return value (which `sys.exit` turns into the process status),
as a function of whether `CLAUDE.md` could be read and of the three values
`send_mcp_request` returned.  An uncaught exception also ends the
interpreter with status 1, so `crash` outcomes map to 1 as well. -/
def main (fileOk : Bool) (r1 r2 r3 : Option Json) : Nat :=
  if !fileOk then 1
  else
    match checkResp r1 with
    | .ok =>
        match checkResp r2 with
        | .ok =>
            match extractOutcome r2 with
            | .done (some (_, some d)) =>
                if !d.truthy then 1
                else
                  match checkResp r3 with
                  | .ok => 0
                  | _ => 1
            | _ => 1
        | _ => 1
    | _ => 1

/-- The `params` literal of the `initialize` call in `main`. -/
def initParams : Json :=
  Json.obj [("protocolVersion", Json.str "2024-11-05"),
            ("capabilities", Json.obj [("tools", Json.obj [])]),
            ("clientInfo", Json.obj [("name", Json.str "claude-doc-creator"),
                                     ("version", Json.str "1.0.0")])]

/-- The `params` literal of the document-creation call in `main`. -/
def createParams : Json :=
  Json.obj [("name", Json.str "docs_document_create"),
            ("arguments",
             Json.obj [("title",
                        Json.str "Claude Code Instructions for Google MCP Server")])]

/-- The `params` of the formatting call in `main`, given the extracted id
and the `CLAUDE.md` text. -/
def formatParams (docId : Json) (claudeMd : String) : Json :=
  Json.obj [("name", Json.str "docs_document_format"),
            ("arguments", Json.obj [("document_id", docId),
                                    ("markdown_content", Json.str claudeMd),
                                    ("mode", Json.str "replace")])]

/-- The per-process request trace of one run of the script: every call to
`send_mcp_request` spawns a fresh child and writes it exactly one request,
so each inner list is one process's stdin traffic.  Later spawns happen only
while earlier steps keep succeeding. -/
def sessions (fileOk : Bool) (claudeMd : String) (r1 r2 r3 : Option Json) :
    List (List Json) :=
  if !fileOk then []
  else
    [request "initialize" (some initParams)] ::
      match checkResp r1 with
      | .ok =>
          [request "tools/call" (some createParams)] ::
            match checkResp r2 with
            | .ok =>
                match extractOutcome r2 with
                | .done (some (_, some d)) =>
                    if !d.truthy then []
                    else [[request "tools/call" (some (formatParams d claudeMd))]]
                | _ => []
            | _ => []
      | _ => []

/-- Process-lifecycle actions of one `send_mcp_request` call after the
spawn.  The script never calls `terminate` or `kill`: on the normal path
`communicate()` closes stdin and waits for the child's own exit, and if
`json.dumps` raises after the spawn (the request is built after `Popen`),
nothing at all is done with the process. -/
def sendCleanup (dumpsOk : Bool) : List ProcAction :=
  if dumpsOk then [ProcAction.communicateWait] else []

end CreateClaudeDoc

/-! ### `test_mcp.py` -/

namespace TestMcp

/-- `read_response`'s returned value given the line `readline` yielded and
the child's stderr so far.  The stderr argument is present because the
execution state contains it, but the function never consults it: an empty
line (stream closed) skips the parse and falls through to `return None`, a
non-empty line is stripped and parsed, and a decode error is caught and also
yields `None`. -/
def read_response (line : String) (stderrData : String) : Option Json :=
  if line.isEmpty then none
  else parseJson (pyStrip line)

/-- The document-id extraction of `main` (lines 122–138): takes the first
content item unconditionally — without checking its `type` — feeds its
`text` (default `"\x7b\x7d"`) to `json.loads`, and returns 1 from `main` on
a decode error (`parseFail`).  Non-dict shapes raise. -/
def docIdExtract : List Json → ExtractOutcome
  | [] => .done none
  | item :: _ =>
      match item with
      | .obj fields =>
          match itemText fields with
          | none => .crash
          | some t =>
              match parseJson t with
              | none => .parseFail
              | some (Json.obj doc) => .done (some (t, jlookup doc "documentId"))
              | some _ => .crash
      | _ => .crash

/-- The whole extraction step of `main`: unwrap `result.content`, treat a
falsy `content` as a missing id, and otherwise look at the first item. -/
def extractOutcome (r : Option Json) : ExtractOutcome :=
  match contentOf r with
  | .crash => .crash
  | .emptyOrMissing => .done none
  | .items l => docIdExtract l

/-- Whether `main` gets past `if not document_id`. -/
def extractionOk (r : Option Json) : Bool :=
  match extractOutcome r with
  | .done (some (_, some d)) => d.truthy
  | _ => false

/-- `main`'s return value as a function of the `CLAUDE.md` read and the four
responses read back.  The `tools/list` response is printed but never
checked, hence the underscore.  Exceptions inside the `try` are caught and
mapped to 1; the extraction's `parseFail` branch returns 1 directly. -/
def main (contentOk : Bool) (rInit : Option Json) (_rTools : Option Json)
    (rCreate rFormat : Option Json) : Nat :=
  if !contentOk then 1
  else
    match checkResp rInit with
    | .ok =>
        match checkResp rCreate with
        | .ok =>
            match extractOutcome rCreate with
            | .done (some (_, some d)) =>
                if !d.truthy then 1
                else
                  match checkResp rFormat with
                  | .ok => 0
                  | _ => 1
            | _ => 1
        | _ => 1
    | _ => 1

/-- The `initialize` request literal of `main`. -/
def initRequest : Json :=
  Json.obj [("jsonrpc", Json.str "2.0"), ("id", Json.num 1),
            ("method", Json.str "initialize"),
            ("params",
             Json.obj [("protocolVersion", Json.str "2024-11-05"),
                       ("capabilities", Json.obj [("tools", Json.obj [])]),
                       ("clientInfo",
                        Json.obj [("name", Json.str "claude-doc-creator"),
                                  ("version", Json.str "1.0.0")])])]

/-- The id-less `initialized` notification literal of `main`. -/
def notifRequest : Json :=
  Json.obj [("jsonrpc", Json.str "2.0"), ("method", Json.str "initialized")]

/-- The `tools/list` request literal of `main`. -/
def toolsRequest : Json :=
  Json.obj [("jsonrpc", Json.str "2.0"), ("id", Json.num 2),
            ("method", Json.str "tools/list")]

/-- The document-creation request literal of `main`. -/
def createRequest : Json :=
  Json.obj [("jsonrpc", Json.str "2.0"), ("id", Json.num 3),
            ("method", Json.str "tools/call"),
            ("params",
             Json.obj [("name", Json.str "docs_document_create"),
                       ("arguments",
                        Json.obj [("title",
                                   Json.str "Claude Code Instructions for Google MCP Server")])])]

/-- The formatting request of `main`, given the extracted id and the
`CLAUDE.md` text. -/
def formatRequest (docId : Json) (claudeMd : String) : Json :=
  Json.obj [("jsonrpc", Json.str "2.0"), ("id", Json.num 4),
            ("method", Json.str "tools/call"),
            ("params",
             Json.obj [("name", Json.str "docs_document_format"),
                       ("arguments", Json.obj [("document_id", docId),
                                               ("markdown_content", Json.str claudeMd),
                                               ("mode", Json.str "replace")])])]

/-- Every request `main` writes, in order, to its one spawned process; later
requests are written only while earlier checked steps succeed, and the
`tools/list` response gates nothing. -/
def requests (rInit rCreate : Option Json) (claudeMd : String) : List Json :=
  initRequest ::
    match checkResp rInit with
    | .ok =>
        notifRequest :: toolsRequest :: createRequest ::
          (match checkResp rCreate with
           | .ok =>
               match extractOutcome rCreate with
               | .done (some (_, some d)) =>
                   if !d.truthy then [] else [formatRequest d claudeMd]
               | _ => []
           | _ => [])
    | _ => []

/-- The per-process request trace of one run: when the `CLAUDE.md` read
fails the script returns before `Popen`, otherwise exactly one child is
spawned and receives every request of the run. -/
def sessions (contentOk : Bool) (claudeMd : String) (rInit rCreate : Option Json) :
    List (List Json) :=
  if !contentOk then [] else [requests rInit rCreate claudeMd]

/-- The `finally` block of `main`: request graceful termination, wait up to
five seconds, and kill on `TimeoutExpired`. -/
def cleanup (exitedWithinGrace : Bool) : List ProcAction :=
  ProcAction.terminate :: ProcAction.waitGrace 5 ::
    (if exitedWithinGrace then [] else [ProcAction.kill])

/-- One run's exit code paired with the lifecycle actions performed on the
child.  Before the spawn (a failed `CLAUDE.md` read) there is no process to
release; after the spawn, every path through the `try` — returns and caught
exceptions alike — runs the `finally` cleanup. -/
def runWithCleanup (contentOk : Bool) (rInit rTools rCreate rFormat : Option Json)
    (exitedWithinGrace : Bool) : Nat × List ProcAction :=
  if !contentOk then (1, [])
  else (main true rInit rTools rCreate rFormat, cleanup exitedWithinGrace)

end TestMcp

/-! ### `test_multi_account.py` -/

namespace TestMultiAccount

/-- The request dict this script's `send_mcp_request` builds: `params` is
always present, as `params or \x7b\x7d` replaces a missing or falsy argument
by an empty dict; the member order follows the dict literal. -/
def request (method : String) (params : Option Json) : Json :=
  Json.obj [("jsonrpc", Json.str "2.0"), ("method", Json.str method),
            ("params",
             match params with
             | some p => if p.truthy then p else Json.obj []
             | none => Json.obj []),
            ("id", Json.num 1)]

/-- The characters written to the child's stdin:
`json.dumps(request) + "\n"`. -/
def requestLine (method : String) (params : Option Json) : List Char :=
  dumpChars (request method params) ++ ['\n']

/-- `send_mcp_request`'s returned value given the line `readline` yielded
and the child's stderr (captured but never read).  A line that does not
parse — including the empty line a crashed child leaves — is replaced by a
dict whose single `error` member is a plain string embedding the raw
line. -/
def send_mcp_request (method : String) (params : Option Json)
    (responseLine : String) (stderrData : String) : Json :=
  match parseJson responseLine with
  | some v => v
  | none =>
      Json.obj [("error", Json.str ("Failed to parse response: " ++ responseLine))]

/-- Whether iterating `content["accounts"]` and printing each entry raises:
fine for a list of dicts (and trivially for an absent key or an empty
iterable), `AttributeError`/`TypeError` otherwise. -/
def accountsCrash (cf : List (String × Json)) : Bool :=
  match jlookup cf "accounts" with
  | none => false
  | some (Json.arr accs) =>
      accs.any (fun a => match a with | Json.obj _ => false | _ => true)
  | some (Json.str s) => !s.isEmpty
  | some (Json.obj g) => !g.isEmpty
  | some _ => true

/-- Whether the first step's result processing raises: when `result` is a
dict with a list-valued `content`, the code indexes `content[0]["text"]` and
`json.loads` it with no exception handler; when `content` is present but not
a list, it treats `result` itself as the account summary. -/
def step1Inner (result : Json) : Bool :=
  match result with
  | Json.obj rf =>
      match jlookup rf "content" with
      | none => false
      | some (Json.arr items) =>
          match items with
          | [] => true
          | item :: _ =>
              match item with
              | Json.obj g =>
                  match jlookup g "text" with
                  | some (Json.str s) =>
                      match parseJson s with
                      | some (Json.obj cf) => accountsCrash cf
                      | some _ => true
                      | none => true
                  | some _ => true
                  | none => true
              | _ => true
      | some _ => accountsCrash rf
  | _ => false

/-- Whether one step of `test_accounts_tools` raises on its response:
`"result" in response` itself raises unless the response is a dict (on a
string or list the membership test succeeds but the branch taken then
indexes or `.get`s a non-dict), and a dict response only raises through the
step-specific `inner` processing of its `result`. -/
def stepCrashes (r : Json) (inner : Json → Bool) : Bool :=
  match r with
  | Json.obj fields =>
      match jlookup fields "result" with
      | some result => inner result
      | none => false
  | _ => true

/-- The interpreter's exit status for one run, given the three values
`send_mcp_request` returned: `test_accounts_tools` checks nothing and
returns `None`, and the `__main__` block ignores that, so the script ends
with status 0 on every path that does not raise; only a response shape that
makes the printing logic raise ends with the interpreter's status 1. -/
def exitCode (r1 r2 r3 : Json) : Nat :=
  if stepCrashes r1 step1Inner then 1
  else if stepCrashes r2 (fun _ => false) then 1
  else if stepCrashes r3 (fun _ => false) then 1
  else 0

/-- The per-process request trace of one run: three spawns, one `tools/call`
request each, and never an `initialize`. -/
def sessions : List (List Json) :=
  [[request "tools/call"
      (some (Json.obj [("name", Json.str "accounts_list"),
                       ("arguments", Json.obj [])]))],
   [request "tools/call"
      (some (Json.obj [("name", Json.str "accounts_details"),
                       ("arguments", Json.obj [])]))],
   [request "tools/call"
      (some (Json.obj [("name", Json.str "calendar_list"),
                       ("arguments", Json.obj [])]))]]

/-- Process-lifecycle actions of one `send_mcp_request` call after the
spawn: `terminate` is reached only if the write does not raise (there is no
`try`/`finally`), and nothing ever waits for or kills the child. -/
def sendCleanup (writeOk : Bool) : List ProcAction :=
  if writeOk then [ProcAction.terminate] else []

end TestMultiAccount

/-! ### Serializer lemmas: `json.dumps` emits no raw newline -/

theorem all_ne_of_all (l : List Char) (h : l.all (fun c => c != '\n') = true) :
    ∀ x ∈ l, x ≠ '\n' := by
  intro x hx
  simpa using List.all_eq_true.mp h x hx

theorem hexDigit_ne_nl (d : Nat) : hexDigit d ≠ '\n' := by
  unfold hexDigit
  split <;> decide

theorem mem_escapeChar_ne_nl (c : Char) : ∀ x ∈ escapeChar c, x ≠ '\n' := by
  intro x hx
  unfold escapeChar at hx
  repeat' split at hx
  all_goals simp only [hex4, List.mem_cons, List.mem_append, List.mem_singleton,
    List.not_mem_nil, or_false] at hx
  all_goals try casesm* _ ∨ _
  all_goals try subst_vars
  all_goals first | decide | exact hexDigit_ne_nl _ | assumption

theorem mem_escapeBody_ne_nl : ∀ (l : List Char), ∀ x ∈ escapeBody l, x ≠ '\n'
  | [] => by simp [escapeBody]
  | c :: cs => by
      intro x hx
      simp only [escapeBody, List.mem_append] at hx
      rcases hx with h | h
      · exact mem_escapeChar_ne_nl c x h
      · exact mem_escapeBody_ne_nl cs x h

theorem mem_dumpStr_ne_nl (s : String) : ∀ x ∈ dumpStr s, x ≠ '\n' := by
  intro x hx
  rcases List.mem_cons.mp hx with rfl | h2
  · decide
  · rcases List.mem_append.mp h2 with h3 | h3
    · exact mem_escapeBody_ne_nl s.data x h3
    · rcases List.mem_singleton.mp h3 with rfl
      decide

theorem mem_natCharsAux_ne_nl :
    ∀ (fuel n : Nat) (acc : List Char), (∀ x ∈ acc, x ≠ '\n') →
      ∀ x ∈ natCharsAux fuel n acc, x ≠ '\n'
  | 0, _, _, hacc => hacc
  | fuel + 1, n, acc, hacc => by
      intro x hx
      unfold natCharsAux at hx
      split at hx
      · rcases List.mem_cons.mp hx with rfl | h
        · exact hexDigit_ne_nl _
        · exact hacc x h
      · refine mem_natCharsAux_ne_nl fuel (n / 10) _ ?_ x hx
        intro y hy
        rcases List.mem_cons.mp hy with rfl | h
        · exact hexDigit_ne_nl _
        · exact hacc y h

theorem mem_intChars_ne_nl (n : Int) : ∀ x ∈ intChars n, x ≠ '\n' := by
  intro x hx
  unfold intChars natChars at hx
  split at hx
  · rcases List.mem_cons.mp hx with rfl | h
    · decide
    · exact mem_natCharsAux_ne_nl _ _ _ (by simp) x h
  · exact mem_natCharsAux_ne_nl _ _ _ (by simp) x hx

mutual

theorem mem_dumpChars_ne_nl : ∀ (j : Json), ∀ x ∈ dumpChars j, x ≠ '\n'
  | .null => by
      intro x hx
      have h : x ∈ ['n', 'u', 'l', 'l'] := hx
      exact all_ne_of_all _ (by decide) x h
  | .bool true => by
      intro x hx
      have h : x ∈ ['t', 'r', 'u', 'e'] := hx
      exact all_ne_of_all _ (by decide) x h
  | .bool false => by
      intro x hx
      have h : x ∈ ['f', 'a', 'l', 's', 'e'] := hx
      exact all_ne_of_all _ (by decide) x h
  | .num n => by
      intro x hx
      exact mem_intChars_ne_nl n x hx
  | .str s => by
      intro x hx
      exact mem_dumpStr_ne_nl s x hx
  | .arr items => by
      intro x hx
      have h : x ∈ '[' :: (dumpItems items ++ [']']) := hx
      rcases List.mem_cons.mp h with rfl | h2
      · decide
      · rcases List.mem_append.mp h2 with h3 | h3
        · exact mem_dumpItems_ne_nl items x h3
        · rcases List.mem_singleton.mp h3 with rfl
          decide
  | .obj fields => by
      intro x hx
      have h : x ∈ '\x7b' :: (dumpFields fields ++ ['\x7d']) := hx
      rcases List.mem_cons.mp h with rfl | h2
      · decide
      · rcases List.mem_append.mp h2 with h3 | h3
        · exact mem_dumpFields_ne_nl fields x h3
        · rcases List.mem_singleton.mp h3 with rfl
          decide

theorem mem_dumpItems_ne_nl : ∀ (l : List Json), ∀ x ∈ dumpItems l, x ≠ '\n'
  | [] => by simp [dumpItems]
  | [j] => by
      intro x hx
      exact mem_dumpChars_ne_nl j x hx
  | j :: k :: rest => by
      intro x hx
      have h : x ∈ dumpChars j ++ ',' :: ' ' :: dumpItems (k :: rest) := hx
      rcases List.mem_append.mp h with h2 | h2
      · exact mem_dumpChars_ne_nl j x h2
      · rcases List.mem_cons.mp h2 with rfl | h3
        · decide
        · rcases List.mem_cons.mp h3 with rfl | h4
          · decide
          · exact mem_dumpItems_ne_nl (k :: rest) x h4

theorem mem_dumpFields_ne_nl : ∀ (l : List (String × Json)), ∀ x ∈ dumpFields l, x ≠ '\n'
  | [] => by simp [dumpFields]
  | [(k, v)] => by
      intro x hx
      have h : x ∈ dumpStr k ++ ':' :: ' ' :: dumpChars v := hx
      rcases List.mem_append.mp h with h2 | h2
      · exact mem_dumpStr_ne_nl k x h2
      · rcases List.mem_cons.mp h2 with rfl | h3
        · decide
        · rcases List.mem_cons.mp h3 with rfl | h4
          · decide
          · exact mem_dumpChars_ne_nl v x h4
  | (k, v) :: m :: rest => by
      intro x hx
      have h : x ∈ (dumpStr k ++ ':' :: ' ' :: dumpChars v) ++
          ',' :: ' ' :: dumpFields (m :: rest) := hx
      rcases List.mem_append.mp h with h2 | h2
      · rcases List.mem_append.mp h2 with h5 | h5
        · exact mem_dumpStr_ne_nl k x h5
        · rcases List.mem_cons.mp h5 with rfl | h6
          · decide
          · rcases List.mem_cons.mp h6 with rfl | h7
            · decide
            · exact mem_dumpChars_ne_nl v x h7
      · rcases List.mem_cons.mp h2 with rfl | h3
        · decide
        · rcases List.mem_cons.mp h3 with rfl | h4
          · decide
          · exact mem_dumpFields_ne_nl (m :: rest) x h4

end

theorem count_nl_dumpChars (j : Json) : (dumpChars j).count '\n' = 0 := by
  rw [List.count_eq_zero]
  intro h
  exact mem_dumpChars_ne_nl j '\n' h rfl

/-! ### Claim theorems -/

/-- C1: a response line that parses as a JSON object carrying an `error`
member (and no `result` member) is returned by each client's call primitive
as the parsed value itself — ordinary data, with the error field populated
and no result field, and with no exception raised (each model returns a
value rather than entering its failure branch).  For `create_claude_doc`'s
client the child must have kept stderr empty, the condition under which the
parsed line is what the caller sees. -/
theorem C1_error_response_is_returned_as_data
    (line : String) (v : Json) (method : String) (params : Option Json)
    (stderrData : String)
    (hline : line ≠ "")
    (hstrip : parseJson (pyStrip line) = some v)
    (hraw : parseJson line = some v)
    (herr : v.hasKey "error" = true)
    (hres : v.hasKey "result" = false) :
    TestMcp.read_response line stderrData = some v ∧
    CreateClaudeDoc.send_mcp_request method params line "" = some v ∧
    TestMultiAccount.send_mcp_request method params line stderrData = v := by
  refine ⟨?_, ?_, ?_⟩
  · unfold TestMcp.read_response
    have h : line.isEmpty = false := by
      rcases hb : line.isEmpty
      · rfl
      · exact absurd ((String.isEmpty_iff line).mp hb) hline
    rw [h]
    simpa using hstrip
  · exact hstrip
  · unfold TestMultiAccount.send_mcp_request
    rw [hraw]

/-- C1 witness: the spec's example line
`\x7b"protocol":"2.0","id":7,"error":\x7b"code":-32601,"message":"Method not found"\x7d\x7d`
is returned verbatim by all three clients. -/
theorem C1_witness :
    TestMcp.read_response "\x7b\"protocol\":\"2.0\",\"id\":7,\"error\":\x7b\"code\":-32601,\"message\":\"Method not found\"\x7d\x7d" "" =
      some (Json.obj [("protocol", Json.str "2.0"), ("id", Json.num 7),
        ("error", Json.obj [("code", Json.num (-32601)),
                            ("message", Json.str "Method not found")])]) ∧
    CreateClaudeDoc.send_mcp_request "tools/call" none "\x7b\"protocol\":\"2.0\",\"id\":7,\"error\":\x7b\"code\":-32601,\"message\":\"Method not found\"\x7d\x7d" "" =
      some (Json.obj [("protocol", Json.str "2.0"), ("id", Json.num 7),
        ("error", Json.obj [("code", Json.num (-32601)),
                            ("message", Json.str "Method not found")])]) ∧
    TestMultiAccount.send_mcp_request "tools/call" none "\x7b\"protocol\":\"2.0\",\"id\":7,\"error\":\x7b\"code\":-32601,\"message\":\"Method not found\"\x7d\x7d" "" =
      Json.obj [("protocol", Json.str "2.0"), ("id", Json.num 7),
        ("error", Json.obj [("code", Json.num (-32601)),
                            ("message", Json.str "Method not found")])] :=
  C1_error_response_is_returned_as_data
    "\x7b\"protocol\":\"2.0\",\"id\":7,\"error\":\x7b\"code\":-32601,\"message\":\"Method not found\"\x7d\x7d"
    (Json.obj [("protocol", Json.str "2.0"), ("id", Json.num 7),
      ("error", Json.obj [("code", Json.num (-32601)),
                          ("message", Json.str "Method not found")])])
    "tools/call" none "" (by decide) rfl rfl rfl rfl

/-- C10: in `test_multi_account`'s `send_mcp_request`, every response line
that is not valid JSON — the empty string included — yields a dict whose
`error` member is a plain string embedding the raw line, so call sites see
the same shape as a tool-level error and no `\x7bcode, message\x7d`
structure. -/
theorem C10_parse_failure_becomes_string_error_dict
    (method : String) (params : Option Json) (line stderrData : String)
    (h : parseJson line = none) :
    TestMultiAccount.send_mcp_request method params line stderrData =
      Json.obj [("error", Json.str ("Failed to parse response: " ++ line))] ∧
    (TestMultiAccount.send_mcp_request method params line stderrData).get? "error" =
      some (Json.str ("Failed to parse response: " ++ line)) := by
  constructor
  · unfold TestMultiAccount.send_mcp_request
    rw [h]
  · unfold TestMultiAccount.send_mcp_request
    rw [h]
    rfl

/-- C10 witness: the empty line a crashed child leaves behind. -/
theorem C10_witness :
    TestMultiAccount.send_mcp_request "tools/call" none "" "" =
      Json.obj [("error", Json.str ("Failed to parse response: " ++ ""))] ∧
    (TestMultiAccount.send_mcp_request "tools/call" none "" "").get? "error" =
      some (Json.str ("Failed to parse response: " ++ "")) :=
  C10_parse_failure_becomes_string_error_dict "tools/call" none "" "" rfl

/-- C2 counterexample: the claim "the params field is present iff params was
supplied" fails on both clients.  `create_claude_doc.send_mcp_request`
silently drops a supplied-but-empty params dict (`if params:`), and
`test_multi_account.send_mcp_request` silently adds `params` when none was
supplied (`params or \x7b\x7d`). -/
theorem C2_counterexample :
    (CreateClaudeDoc.request "tools/call" (some (Json.obj []))).hasKey "params" = false ∧
    (TestMultiAccount.request "tools/list" none).hasKey "params" = true :=
  ⟨rfl, rfl⟩

/-- C2 amended: the line written to the child is `json.dumps` of the request
object followed by exactly one newline (the serialization contains no raw
newline, so the terminator is the only one).  The wire field for the
protocol version is named `jsonrpc`.  In `create_claude_doc`'s client the
object holds exactly `jsonrpc`, `id`, `method`, plus `params` iff a truthy
(non-empty) params value was supplied, with the supplied values unchanged;
in `test_multi_account`'s client the `params` field is always present,
defaulting to the empty object. -/
theorem C2_amended (method : String) (params : Option Json) :
    CreateClaudeDoc.requestLine method params =
      dumpChars (CreateClaudeDoc.request method params) ++ ['\n'] ∧
    (CreateClaudeDoc.requestLine method params).count '\n' = 1 ∧
    (CreateClaudeDoc.request method params).keys =
      ["jsonrpc", "id", "method"] ++
        (match params with
         | some p => if p.truthy then ["params"] else []
         | none => []) ∧
    (CreateClaudeDoc.request method params).get? "jsonrpc" = some (Json.str "2.0") ∧
    (CreateClaudeDoc.request method params).get? "id" = some (Json.num 1) ∧
    (CreateClaudeDoc.request method params).get? "method" = some (Json.str method) ∧
    (∀ p, params = some p → p.truthy = true →
        (CreateClaudeDoc.request method params).get? "params" = some p) ∧
    TestMultiAccount.requestLine method params =
      dumpChars (TestMultiAccount.request method params) ++ ['\n'] ∧
    (TestMultiAccount.requestLine method params).count '\n' = 1 ∧
    (TestMultiAccount.request method params).keys =
      ["jsonrpc", "method", "params", "id"] := by
  refine ⟨rfl, ?_, ?_, rfl, rfl, rfl, ?_, rfl, ?_, rfl⟩
  · show (dumpChars (CreateClaudeDoc.request method params) ++ ['\n']).count '\n' = 1
    rw [List.count_append, count_nl_dumpChars]
    rfl
  · rcases params with _ | p
    · rfl
    · rcases h : p.truthy <;>
        simp [CreateClaudeDoc.request, Json.keys, h]
  · intro p hp ht
    subst hp
    simp [CreateClaudeDoc.request, Json.get?, ht, jlookup]
  · show (dumpChars (TestMultiAccount.request method params) ++ ['\n']).count '\n' = 1
    rw [List.count_append, count_nl_dumpChars]
    rfl

/-- C2 witness: a truthy supplied params value is carried unchanged in the
`params` field of `create_claude_doc`'s request object. -/
theorem C2_witness :
    (CreateClaudeDoc.request "tools/call"
        (some (Json.obj [("name", Json.str "accounts_list")]))).get? "params" =
      some (Json.obj [("name", Json.str "accounts_list")]) :=
  (C2_amended "tools/call" (some (Json.obj [("name", Json.str "accounts_list")]))).2.2.2.2.2.2.1
    (Json.obj [("name", Json.str "accounts_list")]) rfl rfl

/-! Helper lemmas about `create_claude_doc`'s document-id loop. -/

theorem docIdScan_no_text : ∀ (content : List Json),
    (∀ item ∈ content, ∃ fields, item = Json.obj fields ∧
      ∀ ty, jlookup fields "type" = some (Json.str ty) → ty ≠ "text") →
    CreateClaudeDoc.docIdScan content = ExtractOutcome.done none
  | [], _ => rfl
  | item :: rest, h => by
      obtain ⟨fields, rfl, hty⟩ := h _ (List.mem_cons_self _ _)
      have hrest := docIdScan_no_text rest (fun i hi => h i (List.mem_cons_of_mem _ hi))
      unfold CreateClaudeDoc.docIdScan
      rcases hl : jlookup fields "type" with _ | jv
      · simp only [hl]
        exact hrest
      · cases jv
        all_goals simp only [hl]
        all_goals try exact hrest
        rename_i ty
        rw [if_neg (hty ty hl)]
        exact hrest

theorem docIdScan_done_from_text : ∀ (content : List Json) (t : String) (d : Option Json),
    CreateClaudeDoc.docIdScan content = ExtractOutcome.done (some (t, d)) →
    ∃ fields, Json.obj fields ∈ content ∧
      jlookup fields "type" = some (Json.str "text") ∧ itemText fields = some t
  | [], t, d, h => by
      simp [CreateClaudeDoc.docIdScan] at h
  | item :: rest, t, d, h => by
      cases item
      case obj fields =>
        revert h
        unfold CreateClaudeDoc.docIdScan
        rcases hl : jlookup fields "type" with _ | jv
        · simp only [hl]
          intro h
          obtain ⟨f2, hmem, h2, h3⟩ := docIdScan_done_from_text rest t d h
          exact ⟨f2, List.mem_cons_of_mem _ hmem, h2, h3⟩
        · have step : CreateClaudeDoc.docIdScan rest = ExtractOutcome.done (some (t, d)) →
              ∃ fields2, Json.obj fields2 ∈ Json.obj fields :: rest ∧
                jlookup fields2 "type" = some (Json.str "text") ∧
                itemText fields2 = some t := by
            intro h
            obtain ⟨f2, hmem, h2, h3⟩ := docIdScan_done_from_text rest t d h
            exact ⟨f2, List.mem_cons_of_mem _ hmem, h2, h3⟩
          cases jv
          all_goals simp only [hl]
          all_goals try exact step
          rename_i ty
          by_cases hty : ty = "text"
          · subst hty
            rw [if_pos rfl]
            rcases hit : itemText fields with _ | txt
            · simp only [hit]
              intro h
              exact ExtractOutcome.noConfusion h
            · simp only [hit]
              rcases hp : parseJson txt with _ | pv
              · simp only [hp]
                exact step
              · cases pv
                all_goals simp only [hp]
                all_goals intro h
                all_goals try exact ExtractOutcome.noConfusion h
                rename_i doc
                have h4 := ExtractOutcome.done.inj h
                have h5 := Option.some.inj h4
                have h6 : txt = t := congrArg Prod.fst h5
                subst h6
                exact ⟨fields, List.mem_cons_self _ _, hl, hit⟩
          · rw [if_neg hty]
            exact step
      all_goals simp [CreateClaudeDoc.docIdScan] at h

theorem docIdScan_first_parsing_text (fields : List (String × Json))
    (rest : List Json) (t : String) (doc : List (String × Json))
    (h1 : jlookup fields "type" = some (Json.str "text"))
    (h2 : itemText fields = some t)
    (h3 : parseJson t = some (Json.obj doc)) :
    CreateClaudeDoc.docIdScan (Json.obj fields :: rest) =
      ExtractOutcome.done (some (t, jlookup doc "documentId")) := by
  conv_lhs => unfold CreateClaudeDoc.docIdScan
  simp only [h1, h2, h3]
  exact if_pos trivial

theorem docIdScan_parse_skip (fields : List (String × Json))
    (rest : List Json) (t : String)
    (h1 : jlookup fields "type" = some (Json.str "text"))
    (h2 : itemText fields = some t)
    (h3 : parseJson t = none) :
    CreateClaudeDoc.docIdScan (Json.obj fields :: rest) =
      CreateClaudeDoc.docIdScan rest := by
  conv_lhs => unfold CreateClaudeDoc.docIdScan
  simp only [h1, h2, h3]
  exact if_pos trivial

/-- C3 counterexample: the claim "never returns the text of an item whose
type is not text" fails on `test_mcp.main`, whose extraction uses
`content[0]` without checking its type: an item of type `"image"` has its
text used, and the id inside it extracted. -/
theorem C3_counterexample :
    TestMcp.docIdExtract
        [Json.obj [("type", Json.str "image"),
                   ("text", Json.str "\x7b\"documentId\": \"Z\"\x7d")]] =
      ExtractOutcome.done (some ("\x7b\"documentId\": \"Z\"\x7d",
        some (Json.str "Z"))) := rfl

/-- C3 amended: in `create_claude_doc` the committed text does come only
from items whose `type` is the string `"text"` — an empty content sequence
or one without such an item yields null, and whenever the loop commits to a
text `t`, some dict item of type `"text"` in the sequence supplied it — but
the item committed to is the first type-`"text"` item whose text parses as
JSON, not unconditionally the first text item.  `test_mcp`'s extraction
instead uses the first item's text regardless of its type (empty content
still yields null there). -/
theorem C3_amended :
    (CreateClaudeDoc.docIdScan [] = ExtractOutcome.done none) ∧
    (∀ content, (∀ item ∈ content, ∃ fields, item = Json.obj fields ∧
        ∀ ty, jlookup fields "type" = some (Json.str ty) → ty ≠ "text") →
      CreateClaudeDoc.docIdScan content = ExtractOutcome.done none) ∧
    (∀ content t d,
      CreateClaudeDoc.docIdScan content = ExtractOutcome.done (some (t, d)) →
      ∃ fields, Json.obj fields ∈ content ∧
        jlookup fields "type" = some (Json.str "text") ∧ itemText fields = some t) ∧
    (∀ fields rest t doc,
      jlookup fields "type" = some (Json.str "text") →
      itemText fields = some t → parseJson t = some (Json.obj doc) →
      CreateClaudeDoc.docIdScan (Json.obj fields :: rest) =
        ExtractOutcome.done (some (t, jlookup doc "documentId"))) ∧
    (TestMcp.docIdExtract [] = ExtractOutcome.done none) :=
  ⟨rfl, docIdScan_no_text, docIdScan_done_from_text,
   fun fields rest t doc h1 h2 h3 =>
     docIdScan_first_parsing_text fields rest t doc h1 h2 h3, rfl⟩

/-- C3 witness: the spec's example — a single type-`"text"` item carrying
`\x7b"documentId":"X"\x7d` — commits to that text and finds the id. -/
theorem C3_witness :
    CreateClaudeDoc.docIdScan
        [Json.obj [("type", Json.str "text"),
                   ("text", Json.str "\x7b\"documentId\":\"X\"\x7d")]] =
      ExtractOutcome.done (some ("\x7b\"documentId\":\"X\"\x7d",
        some (Json.str "X"))) :=
  C3_amended.2.2.2.1 [("type", Json.str "text"),
      ("text", Json.str "\x7b\"documentId\":\"X\"\x7d")] []
    "\x7b\"documentId\":\"X\"\x7d" [("documentId", Json.str "X")] rfl rfl rfl

/-- C4 counterexample: the claim "returns null — not an error, not a
nonzero exit path — whenever the text is not valid JSON" fails on
`test_mcp.main`: non-JSON text such as `"plain status message"` in the first
content item takes the `except json.JSONDecodeError: return 1` branch, an
immediate nonzero exit, not a null result; a full run with that create
response exits 1 before any formatting call. -/
theorem C4_counterexample :
    TestMcp.docIdExtract
        [Json.obj [("type", Json.str "text"),
                   ("text", Json.str "plain status message")]] =
      ExtractOutcome.parseFail ∧
    TestMcp.main true
      (some (Json.obj [("result", Json.obj [("serverInfo", Json.str "ok")])]))
      none
      (some (Json.obj [("result",
        Json.obj [("content", Json.arr [Json.obj [("type", Json.str "text"),
          ("text", Json.str "plain status message")]])])]))
      (some (Json.obj [("result", Json.obj [])])) = 1 :=
  ⟨rfl, rfl⟩

/-- C4 amended: in `create_claude_doc` the inlined lookup is indeed
permissive — an empty or missing content yields null, an item whose text is
malformed JSON is skipped (so all-malformed content yields null), text that
parses but lacks `documentId` yields null, and a present `documentId` is
returned — but in `test_mcp` malformed text is a nonzero exit, not a null
result (the counterexample). -/
theorem C4_amended :
    (CreateClaudeDoc.docIdScan [] = ExtractOutcome.done none) ∧
    (∀ fields rest t, jlookup fields "type" = some (Json.str "text") →
        itemText fields = some t → parseJson t = none →
        CreateClaudeDoc.docIdScan (Json.obj fields :: rest) =
          CreateClaudeDoc.docIdScan rest) ∧
    (∀ fields rest t doc, jlookup fields "type" = some (Json.str "text") →
        itemText fields = some t → parseJson t = some (Json.obj doc) →
        jlookup doc "documentId" = none →
        CreateClaudeDoc.docIdScan (Json.obj fields :: rest) =
          ExtractOutcome.done (some (t, none))) ∧
    (∀ fields rest t doc d, jlookup fields "type" = some (Json.str "text") →
        itemText fields = some t → parseJson t = some (Json.obj doc) →
        jlookup doc "documentId" = some d →
        CreateClaudeDoc.docIdScan (Json.obj fields :: rest) =
          ExtractOutcome.done (some (t, some d))) ∧
    (CreateClaudeDoc.extractOutcome
        (some (Json.obj [("result", Json.obj [])])) = ExtractOutcome.done none) :=
  ⟨rfl,
   docIdScan_parse_skip,
   fun fields rest t doc h1 h2 h3 h4 =>
     (docIdScan_first_parsing_text fields rest t doc h1 h2 h3).trans (by rw [h4]),
   fun fields rest t doc d h1 h2 h3 h4 =>
     (docIdScan_first_parsing_text fields rest t doc h1 h2 h3).trans (by rw [h4]),
   rfl⟩

/-- C4 witness: text that parses as JSON but lacks `documentId` yields a
null id, and malformed text in the first item is skipped in favour of a
later parseable one. -/
theorem C4_witness :
    CreateClaudeDoc.docIdScan
        [Json.obj [("type", Json.str "text"),
                   ("text", Json.str "\x7b\"status\": \"ok\"\x7d")]] =
      ExtractOutcome.done (some ("\x7b\"status\": \"ok\"\x7d", none)) ∧
    CreateClaudeDoc.docIdScan
        (Json.obj [("type", Json.str "text"),
                   ("text", Json.str "plain status message")] ::
          [Json.obj [("type", Json.str "text"),
                     ("text", Json.str "\x7b\"documentId\": \"Y\"\x7d")]]) =
      CreateClaudeDoc.docIdScan
        [Json.obj [("type", Json.str "text"),
                   ("text", Json.str "\x7b\"documentId\": \"Y\"\x7d")]] :=
  ⟨C4_amended.2.2.1 [("type", Json.str "text"),
      ("text", Json.str "\x7b\"status\": \"ok\"\x7d")] []
      "\x7b\"status\": \"ok\"\x7d" [("status", Json.str "ok")] rfl rfl rfl rfl,
   C4_amended.2.1 [("type", Json.str "text"),
      ("text", Json.str "plain status message")]
      [Json.obj [("type", Json.str "text"),
                 ("text", Json.str "\x7b\"documentId\": \"Y\"\x7d")]]
      "plain status message" rfl rfl rfl⟩

/-- C5 counterexample: the claim that a missing output line fails with a
`TransportError` distinct from the parse-failure `ProtocolError` is false on
the code: in both `create_claude_doc` and `test_mcp` the no-output case and
the non-JSON case return the very same value (`None`); no distinct failure
kinds exist anywhere in the scripts. -/
theorem C5_counterexample :
    CreateClaudeDoc.send_mcp_request "initialize" none "" "" = none ∧
    CreateClaudeDoc.send_mcp_request "initialize" none "not json" "" = none ∧
    TestMcp.read_response "" "" = none ∧
    TestMcp.read_response "not json" "" = none :=
  ⟨rfl, rfl, rfl, rfl⟩

/-- C5 amended: there is no transport/protocol distinction: any stdout whose
stripped form is not valid JSON produces exactly the outcome of an empty
stdout in `create_claude_doc` (`None`), `test_mcp.read_response` returns
`None` for both as well, and `test_multi_account` wraps both cases in the
same string-valued `error` dict. -/
theorem C5_amended (method : String) (params : Option Json) (s : String)
    (h : parseJson (pyStrip s) = none) :
    CreateClaudeDoc.send_mcp_request method params s "" =
      CreateClaudeDoc.send_mcp_request method params "" "" ∧
    CreateClaudeDoc.send_mcp_request method params s "" = none ∧
    (∀ e, TestMcp.read_response s e = none) ∧
    (∀ line e, parseJson line = none →
        (TestMultiAccount.send_mcp_request method params line e).get? "error" =
          some (Json.str ("Failed to parse response: " ++ line))) := by
  have hccd : CreateClaudeDoc.send_mcp_request method params s "" = none := h
  refine ⟨hccd.trans rfl, hccd, ?_, ?_⟩
  · intro e
    unfold TestMcp.read_response
    rcases he : s.isEmpty
    · exact h
    · rfl
  · intro line e hl
    unfold TestMultiAccount.send_mcp_request
    rw [hl]
    rfl

/-- C5 witness: a non-JSON line gives the same `None` as no line at all. -/
theorem C5_witness :
    CreateClaudeDoc.send_mcp_request "initialize" none "oops" "" =
      CreateClaudeDoc.send_mcp_request "initialize" none "" "" ∧
    CreateClaudeDoc.send_mcp_request "initialize" none "oops" "" = none :=
  ⟨(C5_amended "initialize" none "oops" rfl).1,
   (C5_amended "initialize" none "oops" rfl).2.1⟩

/-- C6 counterexample: on a fully successful run, `create_claude_doc` spawns
three child processes, not one — each `send_mcp_request` call contains its
own `Popen` — and the second spawned process's only request is a
`tools/call`, so it never received an `initialize`. -/
theorem C6_counterexample :
    (CreateClaudeDoc.sessions true "md"
        (some (Json.obj [("result", Json.obj [("ok", Json.bool true)])]))
        (some (Json.obj [("result", Json.obj [("content", Json.arr
          [Json.obj [("type", Json.str "text"),
                     ("text", Json.str "\x7b\"documentId\": \"abc\"\x7d")]])])]))
        (some (Json.obj [("result", Json.obj [("ok", Json.bool true)])]))).length = 3 ∧
    (CreateClaudeDoc.sessions true "md"
        (some (Json.obj [("result", Json.obj [("ok", Json.bool true)])]))
        (some (Json.obj [("result", Json.obj [("content", Json.arr
          [Json.obj [("type", Json.str "text"),
                     ("text", Json.str "\x7b\"documentId\": \"abc\"\x7d")]])])]))
        (some (Json.obj [("result", Json.obj [("ok", Json.bool true)])])))[1]? =
      some [CreateClaudeDoc.request "tools/call" (some CreateClaudeDoc.createParams)] ∧
    (CreateClaudeDoc.request "tools/call"
        (some CreateClaudeDoc.createParams)).get? "method" =
      some (Json.str "tools/call") :=
  ⟨rfl, rfl, rfl⟩

/-- C6 amended: only `test_mcp` spawns one process per run and writes every
request of the run — `initialize` first — to that process.
`create_claude_doc` and `test_multi_account` spawn one fresh process per
request, every session they create carries exactly one request, and
`test_multi_account`'s three sessions are all `tools/call`s with no
`initialize` anywhere. -/
theorem C6_amended :
    (∀ contentOk claudeMd rInit rCreate,
        (TestMcp.sessions contentOk claudeMd rInit rCreate).length ≤ 1) ∧
    (∀ contentOk claudeMd rInit rCreate reqs,
        TestMcp.sessions contentOk claudeMd rInit rCreate = [reqs] →
        reqs.head? = some TestMcp.initRequest) ∧
    (∀ fileOk claudeMd r1 r2 r3 s,
        s ∈ CreateClaudeDoc.sessions fileOk claudeMd r1 r2 r3 → s.length = 1) ∧
    TestMultiAccount.sessions.length = 3 ∧
    (∀ s, s ∈ TestMultiAccount.sessions → s.length = 1 ∧
        ∀ req ∈ s, req.get? "method" = some (Json.str "tools/call")) := by
  refine ⟨?_, ?_, ?_, rfl, ?_⟩
  · intro c md ri rc
    rcases c
    · simp [TestMcp.sessions]
    · simp [TestMcp.sessions]
  · intro c md ri rc reqs hs
    rcases c
    · simp [TestMcp.sessions] at hs
    · simp [TestMcp.sessions] at hs
      subst hs
      rfl
  · intro f md r1 r2 r3 s hs
    rcases f
    · simp [CreateClaudeDoc.sessions] at hs
    · rcases List.mem_cons.mp hs with rfl | hs2
      · rfl
      · rcases hc1 : checkResp r1
        all_goals simp only [hc1] at hs2
        all_goals try exact absurd hs2 (List.not_mem_nil s)
        rcases List.mem_cons.mp hs2 with rfl | hs3
        · rfl
        · rcases hc2 : checkResp r2
          all_goals simp only [hc2] at hs3
          all_goals try exact absurd hs3 (List.not_mem_nil s)
          rcases hx : CreateClaudeDoc.extractOutcome r2 with _ | _ | opt
          all_goals simp only [hx] at hs3
          all_goals try exact absurd hs3 (List.not_mem_nil s)
          rcases opt with _ | ⟨t, od⟩
          · exact absurd hs3 (List.not_mem_nil s)
          · rcases od with _ | dv
            · exact absurd hs3 (List.not_mem_nil s)
            · rcases ht : dv.truthy
              all_goals simp only [ht] at hs3
              · exact absurd hs3 (List.not_mem_nil s)
              · rcases List.mem_singleton.mp hs3 with rfl
                rfl
  · intro s hs
    rcases List.mem_cons.mp hs with rfl | hs2
    · exact ⟨rfl, by intro req hr; rcases List.mem_singleton.mp hr with rfl; rfl⟩
    · rcases List.mem_cons.mp hs2 with rfl | hs3
      · exact ⟨rfl, by intro req hr; rcases List.mem_singleton.mp hr with rfl; rfl⟩
      · rcases List.mem_singleton.mp hs3 with rfl
        exact ⟨rfl, by intro req hr; rcases List.mem_singleton.mp hr with rfl; rfl⟩

/-- C6 witness: with the read succeeded and both gating responses absent,
`test_mcp`'s one session leads with the `initialize` request, and
`create_claude_doc`'s first session holds exactly one request. -/
theorem C6_witness :
    (TestMcp.requests none none "md").head? = some TestMcp.initRequest ∧
    ([CreateClaudeDoc.request "initialize"
        (some CreateClaudeDoc.initParams)] : List Json).length = 1 :=
  ⟨C6_amended.2.1 true "md" none none (TestMcp.requests none none "md") rfl,
   C6_amended.2.2.1 true "md" none none none
     [CreateClaudeDoc.request "initialize" (some CreateClaudeDoc.initParams)]
     (List.mem_cons_self _ _)⟩

/-- C7 counterexample: the release-on-every-exit-path claim fails outside
`test_mcp`: `test_multi_account` performs no lifecycle action at all when
the request write raises (no `try`/`finally`) and never force-kills even on
the normal path, and `create_claude_doc` never requests termination or kills
at all. -/
theorem C7_counterexample :
    TestMultiAccount.sendCleanup false = [] ∧
    ProcAction.kill ∉ TestMultiAccount.sendCleanup true ∧
    ProcAction.terminate ∉ CreateClaudeDoc.sendCleanup true ∧
    ProcAction.kill ∉ CreateClaudeDoc.sendCleanup true :=
  ⟨rfl, by decide, by decide, by decide⟩

/-- C7 amended: only `test_mcp` implements the claimed discipline, and only
after its spawn: every post-spawn exit path runs the `finally` cleanup,
which requests graceful termination first, waits five seconds, and kills
exactly when the child did not exit within the grace period.
`test_multi_account` merely terminates on its non-exception path. -/
theorem C7_amended (contentOk : Bool) (rInit rTools rCreate rFormat : Option Json)
    (exited : Bool) (h : contentOk = true) :
    (TestMcp.runWithCleanup contentOk rInit rTools rCreate rFormat exited).2 =
      TestMcp.cleanup exited ∧
    (TestMcp.cleanup exited).head? = some ProcAction.terminate ∧
    (exited = false → TestMcp.cleanup exited =
      [ProcAction.terminate, ProcAction.waitGrace 5, ProcAction.kill]) ∧
    (exited = true → TestMcp.cleanup exited =
      [ProcAction.terminate, ProcAction.waitGrace 5]) ∧
    TestMultiAccount.sendCleanup true = [ProcAction.terminate] := by
  subst h
  refine ⟨rfl, ?_, ?_, ?_, rfl⟩
  · rcases exited <;> rfl
  · intro he; subst he; rfl
  · intro he; subst he; rfl

/-- C7 witness: a child that outlives the grace period is terminated,
waited on, then killed. -/
theorem C7_witness :
    TestMcp.cleanup false =
      [ProcAction.terminate, ProcAction.waitGrace 5, ProcAction.kill] :=
  (C7_amended true none none none none false rfl).2.2.1 rfl

/-- C9 counterexample: stderr content does determine the call outcome in
`create_claude_doc`: with the same stdout line `1`, an empty stderr yields
the parsed response while a nonempty stderr yields `None`. -/
theorem C9_counterexample :
    CreateClaudeDoc.send_mcp_request "tools/call" none "1" "" = some (Json.num 1) ∧
    CreateClaudeDoc.send_mcp_request "tools/call" none "1" "warning" = none ∧
    some (Json.num 1) ≠ (none : Option Json) :=
  ⟨rfl, rfl, fun hcon => Option.noConfusion hcon⟩

/-- C9 amended: stderr never affects the outcome in `test_mcp`'s
`read_response` or `test_multi_account`'s client, which never consult it;
`create_claude_doc`'s client is stderr-independent only across executions
whose stderr is empty, since any nonempty stderr forces a `None` return
regardless of stdout. -/
theorem C9_amended (line e1 e2 : String) (method : String) (params : Option Json) :
    TestMcp.read_response line e1 = TestMcp.read_response line e2 ∧
    TestMultiAccount.send_mcp_request method params line e1 =
      TestMultiAccount.send_mcp_request method params line e2 ∧
    (e1 = "" → e2 = "" →
      CreateClaudeDoc.send_mcp_request method params line e1 =
        CreateClaudeDoc.send_mcp_request method params line e2) := by
  refine ⟨rfl, rfl, ?_⟩
  intro h1 h2
  subst h1
  subst h2
  rfl

/-- C9 witness: the guarded `create_claude_doc` case at a concrete line. -/
theorem C9_witness :
    CreateClaudeDoc.send_mcp_request "tools/call" none "1" "" =
      CreateClaudeDoc.send_mcp_request "tools/call" none "1" "" :=
  (C9_amended "1" "" "" "tools/call" none).2.2 rfl rfl

/-- C8 counterexample: `test_multi_account` exits with status 0 even when
every tool call fails — three error responses with no `result` member
still end the run at the interpreter's default status 0. -/
theorem C8_counterexample :
    TestMultiAccount.exitCode
        (Json.obj [("error", Json.str "Method not found")])
        (Json.obj [("error", Json.str "Method not found")])
        (Json.obj [("error", Json.str "Method not found")]) = 0 ∧
    (Json.obj [("error", Json.str "Method not found")]).get? "result" = none ∧
    (Json.obj [("error", Json.str "Method not found")]).hasKey "error" = true :=
  ⟨rfl, rfl, rfl⟩

/-- C8 amended: `create_claude_doc` and `test_mcp` return only 0 or 1 and
return 0 exactly when every checked step succeeds — the file read, the
initialize and tool-call checks, and the id extraction — but `test_mcp`
never checks the `tools/list` response (its exit code is independent of it),
and `test_multi_account` exits 0 even when every call returned an error. -/
theorem C8_amended :
    (∀ fileOk r1 r2 r3, CreateClaudeDoc.main fileOk r1 r2 r3 = 0 ∨
        CreateClaudeDoc.main fileOk r1 r2 r3 = 1) ∧
    (∀ fileOk r1 r2 r3, CreateClaudeDoc.main fileOk r1 r2 r3 = 0 ↔
        fileOk = true ∧ checkResp r1 = RespCheck.ok ∧ checkResp r2 = RespCheck.ok ∧
        CreateClaudeDoc.extractionOk r2 = true ∧ checkResp r3 = RespCheck.ok) ∧
    (∀ c ri rt rc rf, TestMcp.main c ri rt rc rf = 0 ↔
        c = true ∧ checkResp ri = RespCheck.ok ∧ checkResp rc = RespCheck.ok ∧
        TestMcp.extractionOk rc = true ∧ checkResp rf = RespCheck.ok) ∧
    (∀ c ri t t2 rc rf, TestMcp.main c ri t rc rf = TestMcp.main c ri t2 rc rf) ∧
    (∀ f1 f2 f3, jlookup f1 "result" = none →
        TestMultiAccount.exitCode (Json.obj f1) (Json.obj f2) (Json.obj f3) = 0) := by
  refine ⟨?_, ?_, ?_, ?_, ?_⟩
  · intro f r1 r2 r3
    unfold CreateClaudeDoc.main
    repeat' split
    all_goals simp
  · intro f r1 r2 r3
    unfold CreateClaudeDoc.main CreateClaudeDoc.extractionOk
    rcases f
    · simp
    · rcases hc1 : checkResp r1
      · simp [hc1]
      · rcases hc2 : checkResp r2
        · simp [hc1, hc2]
        · rcases hx : CreateClaudeDoc.extractOutcome r2 with _ | _ | opt
          · simp [hc1, hc2, hx]
          · simp [hc1, hc2, hx]
          · rcases opt with _ | ⟨t, od⟩
            · simp [hc1, hc2, hx]
            · rcases od with _ | dv
              · simp [hc1, hc2, hx]
              · rcases ht : dv.truthy
                · simp [hc1, hc2, hx, ht]
                · rcases hc3 : checkResp r3
                  · simp [hc1, hc2, hx, ht, hc3]
                  · simp [hc1, hc2, hx, ht, hc3]
                  · simp [hc1, hc2, hx, ht, hc3]
        · simp [hc1, hc2]
      · simp [hc1]
  · intro c ri rt rc rf
    unfold TestMcp.main TestMcp.extractionOk
    rcases c
    · simp
    · rcases hc1 : checkResp ri
      · simp [hc1]
      · rcases hc2 : checkResp rc
        · simp [hc1, hc2]
        · rcases hx : TestMcp.extractOutcome rc with _ | _ | opt
          · simp [hc1, hc2, hx]
          · simp [hc1, hc2, hx]
          · rcases opt with _ | ⟨t, od⟩
            · simp [hc1, hc2, hx]
            · rcases od with _ | dv
              · simp [hc1, hc2, hx]
              · rcases ht : dv.truthy
                · simp [hc1, hc2, hx, ht]
                · rcases hc3 : checkResp rf
                  · simp [hc1, hc2, hx, ht, hc3]
                  · simp [hc1, hc2, hx, ht, hc3]
                  · simp [hc1, hc2, hx, ht, hc3]
        · simp [hc1, hc2]
      · simp [hc1]
  · intro c ri t t2 rc rf
    rfl
  · intro f1 f2 f3 h
    unfold TestMultiAccount.exitCode TestMultiAccount.stepCrashes
    rcases h2 : jlookup f2 "result" <;> rcases h3 : jlookup f3 "result" <;>
      simp [h, h2, h3]

/-- C8 witness: a fully successful `create_claude_doc` run exits 0. -/
theorem C8_witness :
    CreateClaudeDoc.main true
      (some (Json.obj [("result", Json.obj [("ok", Json.bool true)])]))
      (some (Json.obj [("result", Json.obj [("content", Json.arr
        [Json.obj [("type", Json.str "text"),
                   ("text", Json.str "\x7b\"documentId\": \"abc\"\x7d")]])])]))
      (some (Json.obj [("result", Json.obj [("ok", Json.bool true)])])) = 0 :=
  (C8_amended.2.1 true
      (some (Json.obj [("result", Json.obj [("ok", Json.bool true)])]))
      (some (Json.obj [("result", Json.obj [("content", Json.arr
        [Json.obj [("type", Json.str "text"),
                   ("text", Json.str "\x7b\"documentId\": \"abc\"\x7d")]])])]))
      (some (Json.obj [("result", Json.obj [("ok", Json.bool true)])]))).mpr
    ⟨rfl, rfl, rfl, rfl, rfl⟩
